import Mathlib

set_option maxHeartbeats 1000000

/-!
Shallow embedding of `backend/main.py` of the Menty-Old repository: an HTTP
service that validates an uploaded audio file, transcribes it through a
speech-to-text provider, analyzes the transcript through a language-model
provider, and maps classified exceptions to HTTP status codes.

Providers are modeled as functions supplied by a `GroqEnv`; every operation
additionally returns the list of outbound provider calls it made, so that
"provider is never invoked" properties are statable.
-/

/-- An uploaded file as the endpoint sees it: `audio.filename`,
`audio.content_type` (possibly `None`) and the binary payload `audio.file`. -/
structure UploadFile where
  filename : String
  contentType : Option String
  bytes : List Nat
 deriving DecidableEq

/-- The classified exceptions the two service functions may raise
(`TranscriptionError`, `GroqError`), plus the unclassified case that the
final `except Exception` clause of the endpoint covers. -/
inductive PyExc where
  | transcriptionError (msg : String)
  | groqError (msg : String)
  | otherExc (msg : String)
 deriving DecidableEq

/-- One message of the chat-completion request: a role string and a content
string, as in the dictionaries built at lines 124-133. -/
structure ChatMessage where
  role : String
  content : String
 deriving DecidableEq

/-- Outcome of one outbound provider call: a normal return value, a
`groq.APIError`, or any other exception (carrying its rendered message). -/
inductive ProviderResult (α : Type) where
  | ok (val : α)
  | apiError (msg : String)
  | excFailure (msg : String)
 deriving DecidableEq

/-- One generated choice of a chat completion; `content` models
`choices[i].message.content`. -/
structure Choice where
  content : String
 deriving DecidableEq

/-- The chat-completion response object: its list of generated choices. -/
structure ChatCompletion where
  choices : List Choice
 deriving DecidableEq

/-- A record of one outbound provider call, used to state which providers a
request actually invoked. -/
inductive ProviderCall where
  | transcriptionCall (filename : String) (bytes : List Nat)
  | chatCall (messages : List ChatMessage)
 deriving DecidableEq

/-- Whether a recorded provider call is a chat (language-model) call. -/
def ProviderCall.isChat : ProviderCall → Bool
  | ProviderCall.chatCall _ => true
  | _ => false

/-- The ambient Groq state: whether `groq_client` is non-`None`, and the
behavior of the two provider endpoints, each a function of exactly the data
the code sends it. -/
structure GroqEnv where
  clientAvailable : Bool
  transcriptionsCreate : String → List Nat → ProviderResult String
  chatCompletionsCreate : List ChatMessage → ProviderResult ChatCompletion

/-- `fastapi.HTTPException` as raised by the endpoint: a status code and a
detail message. -/
structure HTTPException where
  status_code : Nat
  detail : String
 deriving DecidableEq

/-- The `AnalysisResponse` pydantic model (lines 40-43): both fields
optional strings. -/
structure AnalysisResponse where
  analysis : Option String
  error : Option String
 deriving DecidableEq

/-- `leadsWith n h` holds when list `n` is an initial segment of list `h`;
helper for the substring test below. -/
def leadsWith : List Char → List Char → Bool
  | [], _ => true
  | _ :: _, [] => false
  | a :: as, b :: bs => a == b && leadsWith as bs

/-- `hasSub n h`: `n` occurs as a contiguous segment of `h`. -/
def hasSub (needle : List Char) : List Char → Bool
  | [] => needle.isEmpty
  | c :: rest => leadsWith needle (c :: rest) || hasSub needle rest

/-- Python string containment `needle in hay`. -/
def strIn (needle hay : String) : Bool :=
  hasSub needle.toList hay.toList

/-- Negation of the rejection test at line 165,
`not audio.content_type or "audio" not in audio.content_type`: the upload
passes validation iff the declared content type is present, truthy
(non-empty) and contains the substring "audio". -/
def isAudioContentType : Option String → Bool
  | none => false
  | some ct => !ct.isEmpty && strIn "audio" ct

/-- Removes the longest run of whitespace characters at the head of a
character list. -/
def dropLeadingWs : List Char → List Char
  | [] => []
  | c :: rest => if c.isWhitespace then dropLeadingWs rest else c :: rest

/-- Python `str.strip()`: the string with leading and trailing whitespace
removed (the code only tests the result for emptiness, so the ASCII
whitespace set suffices). -/
def pyStrip (s : String) : String :=
  String.mk (dropLeadingWs (dropLeadingWs s.toList.reverse).reverse)

/-- `transcribe_audio` (lines 59-90). With no client, raises
`GroqError("Klien Groq tidak tersedia.")` before any call. Otherwise it
calls the transcription endpoint once. Note that the `TranscriptionError`
raised at line 84 for a blank transcript sits inside the `try` block, so
the `except Exception` clause at line 89 catches it and re-raises it with
the message wrapped in "Gagal mentranskripsi audio: "; the fixed no-speech
text therefore reaches the caller only with that wrapping. -/
def transcribe_audio (env : GroqEnv) (audio_file : UploadFile) :
    Except PyExc String × List ProviderCall :=
  if env.clientAvailable = false then
    (Except.error (PyExc.groqError "Klien Groq tidak tersedia."), [])
  else
    let call := ProviderCall.transcriptionCall audio_file.filename audio_file.bytes
    match env.transcriptionsCreate audio_file.filename audio_file.bytes with
    | ProviderResult.ok transcription =>
        if pyStrip transcription = "" then
          (Except.error (PyExc.transcriptionError
            ("Gagal mentranskripsi audio: " ++
             "Tidak dapat mendeteksi suara dalam rekaman. Audio mungkin terlalu sunyi atau tidak jelas.")),
           [call])
        else
          (Except.ok transcription, [call])
    | ProviderResult.apiError e =>
        (Except.error (PyExc.groqError ("Error dari API Groq saat transkripsi: " ++ e)), [call])
    | ProviderResult.excFailure e =>
        (Except.error (PyExc.transcriptionError ("Gagal mentranskripsi audio: " ++ e)), [call])

/-- The fixed system instruction of `analyze_text_with_groq` (lines 107-121);
the adjacent Python string literals concatenate with no separator. -/
def system_prompt : String :=
  "[RULES]" ++
  "Always respond in Bahasa Indonesia." ++
  "DO NOT respond with markdown formatting." ++
  "IF there is no user_message or depression detected, respond with: \x27Tidak ada indikasi depresi.\x27" ++
  "[END RULES]" ++
  "[INSTRUCTIONS]" ++
  "Your job is to analyze the given user messages for signs of depression." ++
  "You will provide a detailed analysis based on the following criteria:" ++
  "- Frequency of negative words and phrases." ++
  "- Presence of suicidal or self-harm thoughts." ++
  "- Emotional tone and intensity." ++
  "Your response should be clear, concise, and actionable." ++
  "[END INSTRUCTIONS]"

/-- The two messages sent to the chat endpoint (lines 124-133): the fixed
system instruction, then the user message embedding the transcript verbatim,
quoted and labeled. -/
def chat_messages (text : String) : List ChatMessage :=
  [{ role := "system", content := system_prompt },
   { role := "user", content := "Teks transkripsi:\n\"" ++ text ++ "\"" }]

/-- `analyze_text_with_groq` (lines 92-140). With no client, raises
`GroqError("Klien Groq tidak tersedia.")` before any call. Otherwise it
makes one chat call; on success it returns `choices[0].message.content`
(an empty choices list raises `IndexError`, caught by the blanket clause
and re-raised as a `GroqError`); a `groq.APIError` and any other exception
are both re-raised as `GroqError` with the respective wrapping. -/
def analyze_text_with_groq (env : GroqEnv) (text : String) :
    Except PyExc String × List ProviderCall :=
  if env.clientAvailable = false then
    (Except.error (PyExc.groqError "Klien Groq tidak tersedia."), [])
  else
    let call := ProviderCall.chatCall (chat_messages text)
    match env.chatCompletionsCreate (chat_messages text) with
    | ProviderResult.ok completion =>
        match completion.choices with
        | [] =>
            (Except.error (PyExc.groqError
              ("Terjadi kesalahan saat menganalisis teks: " ++ "list index out of range")),
             [call])
        | c :: _ =>
            (Except.ok c.content, [call])
    | ProviderResult.apiError e =>
        (Except.error (PyExc.groqError ("Error dari API Groq saat analisis: " ++ e)), [call])
    | ProviderResult.excFailure e =>
        (Except.error (PyExc.groqError ("Terjadi kesalahan saat menganalisis teks: " ++ e)), [call])

/-- The `except` ladder of `analyze_audio_endpoint` (lines 173-180), in
clause order: `TranscriptionError` becomes 400 with the message verbatim,
`GroqError` becomes 503 with the message verbatim, and any other
`Exception` becomes 500 wrapping the message. -/
def handle_exception : PyExc → HTTPException
  | PyExc.transcriptionError m => { status_code := 400, detail := m }
  | PyExc.groqError m => { status_code := 503, detail := m }
  | PyExc.otherExc m => { status_code := 500, detail := "Terjadi kesalahan tak terduga: " ++ m }

/-- `analyze_audio_endpoint` (lines 161-180): validate the content type,
then transcribe, then analyze; success returns `some analysis` with a null
error field, and any classified failure from the two steps is translated by
`handle_exception`. The second component is the full outbound-call trace of
the request. -/
def analyze_audio_endpoint (env : GroqEnv) (audio : UploadFile) :
    Except HTTPException AnalysisResponse × List ProviderCall :=
  if isAudioContentType audio.contentType = false then
    (Except.error { status_code := 400, detail := "File yang diunggah bukan file audio yang valid." }, [])
  else
    match transcribe_audio env audio with
    | (Except.error e, calls) => (Except.error (handle_exception e), calls)
    | (Except.ok transcription, calls₁) =>
        match analyze_text_with_groq env transcription with
        | (Except.error e, calls₂) => (Except.error (handle_exception e), calls₁ ++ calls₂)
        | (Except.ok analysis, calls₂) =>
            (Except.ok { analysis := some analysis, error := none }, calls₁ ++ calls₂)

/-- The two ways module initialization of the credential can fail:
`os.environ[...]` raising `KeyError`, or the explicit check raising
`ValueError`. -/
inductive InitException where
  | keyError (name : String)
  | valueError (msg : String)
 deriving DecidableEq

/-- Module initialization of the credential (lines 23-28):
`os.environ["GROQ_API_KEY"]` raises `KeyError` when the variable is absent,
and the explicit falsiness check raises `ValueError` when it is set to the
empty string. -/
def init_groq_api_key (envVar : Option String) : Except InitException String :=
  match envVar with
  | none => Except.error (InitException.keyError "GROQ_API_KEY")
  | some key =>
      if key = "" then
        Except.error (InitException.valueError
          "Environment variable GROQ_API_KEY tidak ditemukan. Silakan atur terlebih dahulu.")
      else
        Except.ok key

/-- Environment with the Groq client uninitialized (`groq_client is None`);
the provider functions are irrelevant and marked unreachable. -/
def envNoClient : GroqEnv :=
  { clientAvailable := false,
    transcriptionsCreate := fun _ _ => ProviderResult.excFailure "unreachable",
    chatCompletionsCreate := fun _ => ProviderResult.excFailure "unreachable" }

/-- Environment whose transcription endpoint returns a whitespace-only
transcript. -/
def envSilence : GroqEnv :=
  { clientAvailable := true,
    transcriptionsCreate := fun _ _ => ProviderResult.ok "   ",
    chatCompletionsCreate := fun _ =>
      ProviderResult.ok { choices := [{ content := "Tidak ada indikasi depresi." }] } }

/-- Environment where both provider calls succeed. -/
def envHappy : GroqEnv :=
  { clientAvailable := true,
    transcriptionsCreate := fun _ _ => ProviderResult.ok "saya merasa sedih",
    chatCompletionsCreate := fun _ =>
      ProviderResult.ok { choices := [{ content := "Tidak ada indikasi depresi." }] } }

/-- Environment whose transcription endpoint raises a `groq.APIError`. -/
def envApiDown : GroqEnv :=
  { clientAvailable := true,
    transcriptionsCreate := fun _ _ => ProviderResult.apiError "connection refused",
    chatCompletionsCreate := fun _ =>
      ProviderResult.ok { choices := [{ content := "x" }] } }

/-- A well-formed audio upload. -/
def wavUpload : UploadFile :=
  { filename := "speech.wav", contentType := some "audio/wav", bytes := [82, 73, 70, 70] }

/-- The same audio upload, written as a second definition with equal
fields. -/
def wavUploadCopy : UploadFile :=
  { filename := "speech.wav", contentType := some "audio/wav", bytes := [82, 73, 70, 70] }

/-- An upload with a non-audio content type. -/
def pngUpload : UploadFile :=
  { filename := "image.png", contentType := some "image/png", bytes := [137, 80] }

/-- The transcription step never makes a chat call, whatever the provider
behavior. -/
theorem transcribe_calls_no_chat (env : GroqEnv) (af : UploadFile) :
    ((transcribe_audio env af).2.all fun c => !c.isChat) = true := by
  cases hcl : env.clientAvailable with
  | false => simp [transcribe_audio, hcl]
  | true =>
    cases htc : env.transcriptionsCreate af.filename af.bytes with
    | ok s =>
        by_cases hb : pyStrip s = "" <;>
          simp [transcribe_audio, hcl, htc, hb, ProviderCall.isChat]
    | apiError e => simp [transcribe_audio, hcl, htc, ProviderCall.isChat]
    | excFailure e => simp [transcribe_audio, hcl, htc, ProviderCall.isChat]

/-- C1: the error-to-status mapping of `POST /analyze`: every classified
failure raised by either step is translated by the except ladder, under
which a transcription failure becomes HTTP 400 with its message verbatim, a
provider (Groq) failure becomes HTTP 503 with its message verbatim, and any
other exception becomes HTTP 500 whose detail wraps the original message,
matched in that clause order. -/
theorem C1_error_status_mapping :
    (∀ (env : GroqEnv) (audio : UploadFile) (e : PyExc),
       isAudioContentType audio.contentType = true →
       (transcribe_audio env audio).1 = Except.error e →
       (analyze_audio_endpoint env audio).1 = Except.error (handle_exception e)) ∧
    (∀ (env : GroqEnv) (audio : UploadFile) (t : String) (e : PyExc),
       isAudioContentType audio.contentType = true →
       (transcribe_audio env audio).1 = Except.ok t →
       (analyze_text_with_groq env t).1 = Except.error e →
       (analyze_audio_endpoint env audio).1 = Except.error (handle_exception e)) ∧
    (∀ m, handle_exception (PyExc.transcriptionError m) = { status_code := 400, detail := m }) ∧
    (∀ m, handle_exception (PyExc.groqError m) = { status_code := 503, detail := m }) ∧
    (∀ m, handle_exception (PyExc.otherExc m) =
       { status_code := 500, detail := "Terjadi kesalahan tak terduga: " ++ m }) := by
  refine ⟨?_, ?_, fun m => rfl, fun m => rfl, fun m => rfl⟩
  · intro env audio e hct htr
    rcases hta : transcribe_audio env audio with ⟨r, calls⟩
    rw [hta] at htr
    simp only at htr
    subst htr
    simp [analyze_audio_endpoint, hct, hta]
  · intro env audio t e hct htr hal
    rcases hta : transcribe_audio env audio with ⟨r, calls₁⟩
    rw [hta] at htr
    simp only at htr
    subst htr
    rcases han : analyze_text_with_groq env t with ⟨ra, calls₂⟩
    rw [han] at hal
    simp only at hal
    subst hal
    simp [analyze_audio_endpoint, hct, hta, han]

/-- Witness for C1 at a concrete request: the transcription endpoint raises
an API-level error and the endpoint answers 503 with the message verbatim. -/
theorem C1_error_status_mapping_witness :
    (analyze_audio_endpoint envApiDown wavUpload).1 =
      Except.error
        { status_code := 503,
          detail := "Error dari API Groq saat transkripsi: connection refused" } :=
  C1_error_status_mapping.1 envApiDown wavUpload
    (PyExc.groqError "Error dari API Groq saat transkripsi: connection refused")
    (by decide) rfl

/-- C2: on a validated upload where transcription succeeds and the chat call
succeeds with at least one choice, the endpoint returns the body whose
analysis is exactly the content of the first generated choice, character
for character, and whose error field is null. -/
theorem C2_success_verbatim :
    ∀ (env : GroqEnv) (audio : UploadFile) (t : String) (c : Choice) (rest : List Choice),
      isAudioContentType audio.contentType = true →
      env.clientAvailable = true →
      (transcribe_audio env audio).1 = Except.ok t →
      env.chatCompletionsCreate (chat_messages t) = ProviderResult.ok { choices := c :: rest } →
      (analyze_audio_endpoint env audio).1 =
        Except.ok { analysis := some c.content, error := none } := by
  intro env audio t c rest hct hcl htr hchat
  rcases hta : transcribe_audio env audio with ⟨r, calls₁⟩
  rw [hta] at htr
  simp only at htr
  subst htr
  have han : analyze_text_with_groq env t =
      (Except.ok c.content, [ProviderCall.chatCall (chat_messages t)]) := by
    simp [analyze_text_with_groq, hcl, hchat]
  simp [analyze_audio_endpoint, hct, hta, han]

/-- Witness for C2: both provider calls succeed and the endpoint returns the
chat content verbatim with a null error. -/
theorem C2_success_verbatim_witness :
    (analyze_audio_endpoint envHappy wavUpload).1 =
      Except.ok { analysis := some "Tidak ada indikasi depresi.", error := none } :=
  C2_success_verbatim envHappy wavUpload "saya merasa sedih"
    { content := "Tidak ada indikasi depresi." } []
    (by decide) rfl rfl rfl

/-- C3 counterexample: a valid audio upload whose transcript comes back
whitespace-only does yield HTTP 400, but the detail is not the fixed
no-speech message verbatim — the blanket except clause of
`transcribe_audio` re-wraps it with the generic "Gagal mentranskripsi
audio: " text. -/
theorem C3_counterexample :
    (analyze_audio_endpoint envSilence wavUpload).1 =
      Except.error
        { status_code := 400,
          detail := "Gagal mentranskripsi audio: Tidak dapat mendeteksi suara dalam rekaman. Audio mungkin terlalu sunyi atau tidak jelas." } ∧
    "Gagal mentranskripsi audio: Tidak dapat mendeteksi suara dalam rekaman. Audio mungkin terlalu sunyi atau tidak jelas." ≠
      "Tidak dapat mendeteksi suara dalam rekaman. Audio mungkin terlalu sunyi atau tidak jelas." := by
  exact ⟨rfl, by decide⟩

/-- C3 amended: for every valid audio upload whose transcript is empty or
whitespace-only after stripping, the endpoint returns HTTP 400 whose detail
is the fixed no-speech message wrapped in the generic transcription-failure
text "Gagal mentranskripsi audio: " (the in-try raise is intercepted by the
blanket except clause), not the fixed message alone. -/
theorem C3_blank_transcript_wrapped :
    ∀ (env : GroqEnv) (audio : UploadFile) (s : String),
      isAudioContentType audio.contentType = true →
      env.clientAvailable = true →
      env.transcriptionsCreate audio.filename audio.bytes = ProviderResult.ok s →
      pyStrip s = "" →
      (analyze_audio_endpoint env audio).1 =
        Except.error
          { status_code := 400,
            detail := "Gagal mentranskripsi audio: Tidak dapat mendeteksi suara dalam rekaman. Audio mungkin terlalu sunyi atau tidak jelas." } := by
  intro env audio s hct hcl htc hblank
  have hta : transcribe_audio env audio =
      (Except.error (PyExc.transcriptionError
        ("Gagal mentranskripsi audio: " ++
         "Tidak dapat mendeteksi suara dalam rekaman. Audio mungkin terlalu sunyi atau tidak jelas.")),
       [ProviderCall.transcriptionCall audio.filename audio.bytes]) := by
    simp [transcribe_audio, hcl, htc, hblank]
  simp [analyze_audio_endpoint, hct, hta, handle_exception]

/-- Witness for the amended C3 at a concrete request: transcript "   ". -/
theorem C3_blank_transcript_wrapped_witness :
    (analyze_audio_endpoint envSilence wavUploadCopy).1 =
      Except.error
        { status_code := 400,
          detail := "Gagal mentranskripsi audio: Tidak dapat mendeteksi suara dalam rekaman. Audio mungkin terlalu sunyi atau tidak jelas." } :=
  C3_blank_transcript_wrapped envSilence wavUploadCopy "   " (by decide) rfl rfl (by decide)

/-- C4: an upload whose content type is absent or lacks the substring
"audio" makes the endpoint answer 400 with the fixed validation message and
make no outbound provider call at all. -/
theorem C4_validation_short_circuit :
    ∀ (env : GroqEnv) (audio : UploadFile),
      (audio.contentType = none ∨
        ∀ s, audio.contentType = some s → strIn "audio" s = false) →
      analyze_audio_endpoint env audio =
        (Except.error
          { status_code := 400, detail := "File yang diunggah bukan file audio yang valid." },
         []) := by
  intro env audio h
  have hct : isAudioContentType audio.contentType = false := by
    rcases h with h | h
    · simp [isAudioContentType, h]
    · cases hc : audio.contentType with
      | none => simp [isAudioContentType]
      | some s => simp [isAudioContentType, h s hc]
  simp [analyze_audio_endpoint, hct]

/-- Witness for C4: a PNG upload is rejected with the validation message
and an empty call trace. -/
theorem C4_validation_short_circuit_witness :
    analyze_audio_endpoint envHappy pngUpload =
      (Except.error
        { status_code := 400, detail := "File yang diunggah bukan file audio yang valid." },
       []) :=
  C4_validation_short_circuit envHappy pngUpload
    (Or.inr (fun s hs => by
      have : s = "image/png" := by
        have h' : (some "image/png" : Option String) = some s := hs
        exact (Option.some.inj h').symm
      subst this
      decide))

/-- C5: whenever the transcription step fails with any classified failure,
the analysis step is never invoked — the request call trace contains no
chat call — and the response is the except-ladder translation of the
transcription-stage failure. -/
theorem C5_transcription_failure_short_circuits :
    ∀ (env : GroqEnv) (audio : UploadFile) (e : PyExc),
      isAudioContentType audio.contentType = true →
      (transcribe_audio env audio).1 = Except.error e →
      (analyze_audio_endpoint env audio).1 = Except.error (handle_exception e) ∧
      ((analyze_audio_endpoint env audio).2.all fun c => !c.isChat) = true := by
  intro env audio e hct htr
  rcases hta : transcribe_audio env audio with ⟨r, calls⟩
  rw [hta] at htr
  simp only at htr
  subst htr
  have hnochat := transcribe_calls_no_chat env audio
  rw [hta] at hnochat
  constructor
  · simp [analyze_audio_endpoint, hct, hta]
  · simpa [analyze_audio_endpoint, hct, hta] using hnochat

/-- Witness for C5: transcription fails because the client handle is
uninitialized; the response is 503 and the call trace has no chat call. -/
theorem C5_transcription_failure_short_circuits_witness :
    (analyze_audio_endpoint envNoClient wavUpload).1 =
      Except.error { status_code := 503, detail := "Klien Groq tidak tersedia." } ∧
    ((analyze_audio_endpoint envNoClient wavUpload).2.all fun c => !c.isChat) = true :=
  C5_transcription_failure_short_circuits envNoClient wavUpload
    (PyExc.groqError "Klien Groq tidak tersedia.") (by decide) rfl

/-- C6: whenever the client handle is uninitialized (`groq_client is
None`), both steps raise the upstream-service failure
`GroqError("Klien Groq tidak tersedia.")` before making any outbound call,
and a validated request is answered with HTTP 503. -/
theorem C6_client_none_503 :
    ∀ (env : GroqEnv), env.clientAvailable = false →
      (∀ af : UploadFile, transcribe_audio env af =
        (Except.error (PyExc.groqError "Klien Groq tidak tersedia."), [])) ∧
      (∀ t : String, analyze_text_with_groq env t =
        (Except.error (PyExc.groqError "Klien Groq tidak tersedia."), [])) ∧
      (∀ audio : UploadFile, isAudioContentType audio.contentType = true →
        analyze_audio_endpoint env audio =
          (Except.error { status_code := 503, detail := "Klien Groq tidak tersedia." }, [])) := by
  intro env h
  refine ⟨fun af => by simp [transcribe_audio, h],
          fun t => by simp [analyze_text_with_groq, h],
          fun audio hct => ?_⟩
  have hta : transcribe_audio env audio =
      (Except.error (PyExc.groqError "Klien Groq tidak tersedia."), []) := by
    simp [transcribe_audio, h]
  simp [analyze_audio_endpoint, hct, hta, handle_exception]

/-- Witness for C6: with an uninitialized client, the transcription step
fails before any call and a WAV request is answered 503 with no calls. -/
theorem C6_client_none_503_witness :
    transcribe_audio envNoClient pngUpload =
      (Except.error (PyExc.groqError "Klien Groq tidak tersedia."), []) ∧
    analyze_text_with_groq envNoClient "halo" =
      (Except.error (PyExc.groqError "Klien Groq tidak tersedia."), []) ∧
    analyze_audio_endpoint envNoClient wavUploadCopy =
      (Except.error { status_code := 503, detail := "Klien Groq tidak tersedia." }, []) :=
  ⟨(C6_client_none_503 envNoClient rfl).1 pngUpload,
   (C6_client_none_503 envNoClient rfl).2.1 "halo",
   (C6_client_none_503 envNoClient rfl).2.2 wavUploadCopy (by decide)⟩

/-- C7: exactly one of the analysis field and the error information is
populated: every success body has a populated analysis and a null error
field, and every failure is an `HTTPException` carrying only a detail
message (the `AnalysisResponse` body, with its analysis field, is not
returned at all on failure). -/
theorem C7_exactly_one_populated :
    ∀ (env : GroqEnv) (audio : UploadFile) (r : AnalysisResponse),
      (analyze_audio_endpoint env audio).1 = Except.ok r →
      (∃ t, r.analysis = some t) ∧ r.error = none := by
  intro env audio r h
  cases hct : isAudioContentType audio.contentType with
  | false => simp [analyze_audio_endpoint, hct] at h
  | true =>
    rcases hta : transcribe_audio env audio with ⟨rt, calls₁⟩
    cases rt with
    | error e => simp [analyze_audio_endpoint, hct, hta] at h
    | ok t =>
      rcases han : analyze_text_with_groq env t with ⟨ra, calls₂⟩
      cases ra with
      | error e => simp [analyze_audio_endpoint, hct, hta, han] at h
      | ok a =>
        have hok : (analyze_audio_endpoint env audio).1 =
            Except.ok { analysis := some a, error := none } := by
          simp [analyze_audio_endpoint, hct, hta, han]
        rw [hok] at h
        have hr : ({ analysis := some a, error := none } : AnalysisResponse) = r :=
          Except.ok.inj h
        subst hr
        exact ⟨⟨a, rfl⟩, rfl⟩

/-- Witness for C7 at the success response of a concrete request. -/
theorem C7_exactly_one_populated_witness :
    (∃ t, (AnalysisResponse.mk (some "Tidak ada indikasi depresi.") none).analysis = some t) ∧
    (AnalysisResponse.mk (some "Tidak ada indikasi depresi.") none).error = none :=
  C7_exactly_one_populated envHappy wavUploadCopy
    (AnalysisResponse.mk (some "Tidak ada indikasi depresi.") none) rfl

/-- C8: with an available client, the analysis step makes exactly one chat
call, whose message list is exactly the fixed system instruction followed
by the user message "Teks transkripsi:" + newline + the transcript embedded
verbatim between double quotes. -/
theorem C8_chat_messages_exact :
    ∀ (env : GroqEnv) (t : String), env.clientAvailable = true →
      (analyze_text_with_groq env t).2 =
        [ProviderCall.chatCall
          [{ role := "system", content := system_prompt },
           { role := "user", content := "Teks transkripsi:\n\"" ++ t ++ "\"" }]] := by
  intro env t h
  have hmsg : chat_messages t =
      [{ role := "system", content := system_prompt },
       { role := "user", content := "Teks transkripsi:\n\"" ++ t ++ "\"" }] := rfl
  rw [← hmsg]
  cases hc : env.chatCompletionsCreate (chat_messages t) with
  | ok completion =>
      rcases completion with ⟨choices⟩
      cases choices with
      | nil => simp [analyze_text_with_groq, h, hc]
      | cons c rest => simp [analyze_text_with_groq, h, hc]
  | apiError e => simp [analyze_text_with_groq, h, hc]
  | excFailure e => simp [analyze_text_with_groq, h, hc]

/-- Witness for C8 at a concrete transcript. -/
theorem C8_chat_messages_exact_witness :
    (analyze_text_with_groq envHappy "saya merasa sedih").2 =
      [ProviderCall.chatCall
        [{ role := "system", content := system_prompt },
         { role := "user", content := "Teks transkripsi:\n\"" ++ "saya merasa sedih" ++ "\"" }]] :=
  C8_chat_messages_exact envHappy "saya merasa sedih" rfl

/-- C9: when the GROQ_API_KEY environment variable is absent or set to the
empty string, module initialization raises (`KeyError` on the environment
lookup, or the explicit `ValueError`), so the process refuses to start. -/
theorem C9_missing_key_fatal :
    ∀ v : Option String, (v = none ∨ v = some "") →
      ∃ e, init_groq_api_key v = Except.error e := by
  intro v h
  rcases h with h | h <;> subst h
  · exact ⟨InitException.keyError "GROQ_API_KEY", rfl⟩
  · refine ⟨InitException.valueError
      "Environment variable GROQ_API_KEY tidak ditemukan. Silakan atur terlebih dahulu.", ?_⟩
    simp [init_groq_api_key]

/-- Witness for C9 at the absent-variable input. -/
theorem C9_missing_key_fatal_witness :
    ∃ e, init_groq_api_key none = Except.error e :=
  C9_missing_key_fatal none (Or.inl rfl)

/-- C10: with the provider behavior fixed by the environment, the request
pipeline is a pure function of the upload: two uploads agreeing on
filename, content type and payload receive identical responses and
identical call traces. -/
theorem C10_deterministic :
    ∀ (env : GroqEnv) (u₁ u₂ : UploadFile),
      u₁.filename = u₂.filename →
      u₁.contentType = u₂.contentType →
      u₁.bytes = u₂.bytes →
      analyze_audio_endpoint env u₁ = analyze_audio_endpoint env u₂ := by
  intro env u₁ u₂ h₁ h₂ h₃
  have : u₁ = u₂ := by
    cases u₁
    cases u₂
    simp_all
  rw [this]

/-- Witness for C10: two identical WAV uploads get the same response. -/
theorem C10_deterministic_witness :
    analyze_audio_endpoint envHappy wavUpload = analyze_audio_endpoint envHappy wavUploadCopy :=
  C10_deterministic envHappy wavUpload wavUploadCopy rfl rfl rfl
